import Mathlib

/-!
Verification of the auxiliary-window session manager
(`src/vs/platform/issue/electron-main/issueMainService.ts`).

The development shallowly embeds the parts of `IssueMainService` that the
verified properties touch:

* the placement calculator `getWindowPosition` (source lines 439-506),
  embedded over exact rationals because JavaScript division by 2 does not
  round;
* the diagnostic-session open/close state machine shared by
  `openReporter` (lines 308-356) and `openProcessExplorer` (lines
  358-399), whose control flow is identical for the two roles;
* the generic bridge window `openBrowserWindow` (lines 192-306) with its
  per-channel listeners;
* the `vscode:workbenchCommand` router (lines 138-156);
* the IPC request handlers for process listing, performance info and the
  clipboard confirmation, with the external collaborators (launch service,
  diagnostics service, dialog service) abstracted as oracle inputs given
  by `Except` values.

Pieces of the source that no verified property depends on (window options
passed to Electron, dev-tools opening, URL loading, the ready-to-show
handshake and its timer) are not modelled; every modelled branch follows
the source line by line.
-/

namespace IssueMain

/-- Bounds of a display as reported by Electron (`displayToUse.bounds`,
source line 475): integer origin and extent. -/
structure DisplayBounds where
  x : Int
  y : Int
  width : Int
  height : Int
deriving DecidableEq, Repr

/-- The mutable `IWindowState` record built by `getWindowPosition`
(source lines 470-505).  Fields are exact rationals because the centering
arithmetic on lines 476-477 divides by 2 without rounding. -/
structure PlacementState where
  x : Rat
  y : Rat
  width : Rat
  height : Rat
deriving DecidableEq, Repr

/-- Embedding of `IssueMainService.getWindowPosition` (source lines
439-506) from the chosen display's bounds onward.  The display-selection
preamble (lines 442-468) only picks which `DisplayBounds` is used, so the
chosen display is a parameter here.  Lines 476-477 centre the requested
size on the display; lines 479-503 clamp only when the display reports
positive width and height.  The source mutates the fields of one
`IWindowState` record in statement order; since the six guarded updates
touch four distinct fields, they are written here as one chain per field,
with the two updates to `x` (lines 480-482 and 488-490) and the two
updates to `y` (lines 484-486 and 492-494) chained in source order. -/
def getWindowPosition (displayBounds : DisplayBounds)
    (defaultWidth defaultHeight : Int) : PlacementState :=
  let x0 : Rat := (displayBounds.x : Rat) + (displayBounds.width : Rat) / 2 - (defaultWidth : Rat) / 2
  let y0 : Rat := (displayBounds.y : Rat) + (displayBounds.height : Rat) / 2 - (defaultHeight : Rat) / 2
  if 0 < displayBounds.width ∧ 0 < displayBounds.height then
    -- prevent window from falling out of the screen to the left (lines 480-482)
    let x1 := if x0 < (displayBounds.x : Rat) then (displayBounds.x : Rat) else x0
    -- prevent window from falling out of the screen to the right (lines 488-490)
    let x2 := if (displayBounds.x : Rat) + (displayBounds.width : Rat) < x1 then
      (displayBounds.x : Rat) else x1
    -- prevent window from falling out of the screen to the top (lines 484-486)
    let y1 := if y0 < (displayBounds.y : Rat) then (displayBounds.y : Rat) else y0
    -- prevent window from falling out of the screen to the bottom (lines 492-494)
    let y2 := if (displayBounds.y : Rat) + (displayBounds.height : Rat) < y1 then
      (displayBounds.y : Rat) else y1
    -- prevent window from exceeding display bounds width (lines 496-498)
    let w := if (displayBounds.width : Rat) < (defaultWidth : Rat) then
      (displayBounds.width : Rat) else (defaultWidth : Rat)
    -- prevent window from exceeding display bounds height (lines 500-502)
    let h := if (displayBounds.height : Rat) < (defaultHeight : Rat) then
      (displayBounds.height : Rat) else (defaultHeight : Rat)
    { x := x2, y := y2, width := w, height := h }
  else
    { x := x0, y := y0, width := (defaultWidth : Rat), height := (defaultHeight : Rat) }

lemma getWindowPosition_x_cases (db : DisplayBounds) (dw dh : Int) :
    (getWindowPosition db dw dh).x = (db.x : Rat) ∨
    (getWindowPosition db dw dh).x
      = (db.x : Rat) + (db.width : Rat) / 2 - (dw : Rat) / 2 := by
  simp only [getWindowPosition]
  split_ifs <;> simp

lemma getWindowPosition_y_cases (db : DisplayBounds) (dw dh : Int) :
    (getWindowPosition db dw dh).y = (db.y : Rat) ∨
    (getWindowPosition db dw dh).y
      = (db.y : Rat) + (db.height : Rat) / 2 - (dh : Rat) / 2 := by
  simp only [getWindowPosition]
  split_ifs <;> simp

lemma getWindowPosition_width_cases (db : DisplayBounds) (dw dh : Int) :
    (getWindowPosition db dw dh).width = (db.width : Rat) ∨
    (getWindowPosition db dw dh).width = (dw : Rat) := by
  simp only [getWindowPosition]
  split_ifs <;> simp

lemma getWindowPosition_height_cases (db : DisplayBounds) (dw dh : Int) :
    (getWindowPosition db dw dh).height = (db.height : Rat) ∨
    (getWindowPosition db dw dh).height = (dh : Rat) := by
  simp only [getWindowPosition]
  split_ifs <;> simp

set_option maxHeartbeats 2000000 in
/-- C4: for every display whose reported bounds have positive width and
positive height, and any positive requested default size, the rectangle
returned by `getWindowPosition` (centre on the display, then clamp) lies
fully within the display's bounds; in particular a 1920x1080 display at
the origin with requested size 700x800 yields exactly
x = 610, y = 140, width = 700, height = 800. -/
theorem C4_placement_within_bounds :
    (∀ (db : DisplayBounds) (dw dh : Int), 0 < db.width → 0 < db.height →
      0 < dw → 0 < dh →
      (db.x : Rat) ≤ (getWindowPosition db dw dh).x ∧
      (db.y : Rat) ≤ (getWindowPosition db dw dh).y ∧
      (getWindowPosition db dw dh).x + (getWindowPosition db dw dh).width
        ≤ (db.x : Rat) + (db.width : Rat) ∧
      (getWindowPosition db dw dh).y + (getWindowPosition db dw dh).height
        ≤ (db.y : Rat) + (db.height : Rat)) ∧
    getWindowPosition ⟨0, 0, 1920, 1080⟩ 700 800 = ⟨610, 140, 700, 800⟩ := by
  constructor
  · intro db dw dh hW hH hw hh
    have hW2 : (0 : Rat) < (db.width : Rat) := by exact_mod_cast hW
    have hH2 : (0 : Rat) < (db.height : Rat) := by exact_mod_cast hH
    have hw2 : (0 : Rat) < (dw : Rat) := by exact_mod_cast hw
    have hh2 : (0 : Rat) < (dh : Rat) := by exact_mod_cast hh
    simp only [getWindowPosition, if_pos (And.intro hW hH)]
    split_ifs <;> refine ⟨?_, ?_, ?_, ?_⟩ <;> dsimp only <;> linarith
  · norm_num [getWindowPosition]

/-- Witness for C4: the containment part applied to the 1920x1080 display
at the origin with requested size 700x800. -/
theorem C4_placement_within_bounds_witness :
    (0 : Int) < (1920 : Int) ∧ (0 : Int) < (1080 : Int) ∧
    (0 : Int) < (700 : Int) ∧ (0 : Int) < (800 : Int) ∧
    (((⟨0, 0, 1920, 1080⟩ : DisplayBounds).x : Rat)
        ≤ (getWindowPosition ⟨0, 0, 1920, 1080⟩ 700 800).x ∧
      (((⟨0, 0, 1920, 1080⟩ : DisplayBounds).y : Rat)
        ≤ (getWindowPosition ⟨0, 0, 1920, 1080⟩ 700 800).y) ∧
      ((getWindowPosition ⟨0, 0, 1920, 1080⟩ 700 800).x
          + (getWindowPosition ⟨0, 0, 1920, 1080⟩ 700 800).width
        ≤ ((⟨0, 0, 1920, 1080⟩ : DisplayBounds).x : Rat)
          + ((⟨0, 0, 1920, 1080⟩ : DisplayBounds).width : Rat)) ∧
      ((getWindowPosition ⟨0, 0, 1920, 1080⟩ 700 800).y
          + (getWindowPosition ⟨0, 0, 1920, 1080⟩ 700 800).height
        ≤ ((⟨0, 0, 1920, 1080⟩ : DisplayBounds).y : Rat)
          + ((⟨0, 0, 1920, 1080⟩ : DisplayBounds).height : Rat))) :=
  ⟨by decide, by decide, by decide, by decide,
    C4_placement_within_bounds.1 ⟨0, 0, 1920, 1080⟩ 700 800
      (by decide) (by decide) (by decide) (by decide)⟩

/-- C5 counterexample: on a display of width 1921 (odd) at the origin,
the centering arithmetic of lines 476-477 produces x = 1221/2, which is
not an integer, refuting the claim that all four placement fields are
always integers. -/
theorem C5_counterexample_x_not_integer :
    ¬ ∃ n : Int, (getWindowPosition ⟨0, 0, 1921, 1080⟩ 700 800).x = (n : Rat) := by
  have hx : (getWindowPosition ⟨0, 0, 1921, 1080⟩ 700 800).x = (1221 : Rat) / 2 := by
    norm_num [getWindowPosition]
  rintro ⟨n, hn⟩
  rw [hx] at hn
  have h2 : (1221 : Rat) = 2 * (n : Rat) := by linarith
  have h3 : (1221 : Int) = 2 * n := by exact_mod_cast h2
  omega

/-- C5 amended: all four placement fields are finite exact rationals;
width and height are always integers, while x and y are in general only
half-integers (twice each of them is an integer), because the centering
divides by 2 without rounding. -/
theorem C5_amended_placement_half_integers :
    ∀ (db : DisplayBounds) (dw dh : Int),
      (∃ a : Int, 2 * (getWindowPosition db dw dh).x = (a : Rat)) ∧
      (∃ b : Int, 2 * (getWindowPosition db dw dh).y = (b : Rat)) ∧
      (∃ c : Int, (getWindowPosition db dw dh).width = (c : Rat)) ∧
      (∃ d : Int, (getWindowPosition db dw dh).height = (d : Rat)) := by
  intro db dw dh
  refine ⟨?_, ?_, ?_, ?_⟩
  · rcases getWindowPosition_x_cases db dw dh with h | h
    · exact ⟨2 * db.x, by rw [h]; push_cast; ring⟩
    · exact ⟨2 * db.x + db.width - dw, by rw [h]; push_cast; ring⟩
  · rcases getWindowPosition_y_cases db dw dh with h | h
    · exact ⟨2 * db.y, by rw [h]; push_cast; ring⟩
    · exact ⟨2 * db.y + db.height - dh, by rw [h]; push_cast; ring⟩
  · rcases getWindowPosition_width_cases db dw dh with h | h
    · exact ⟨db.width, by rw [h]⟩
    · exact ⟨dw, by rw [h]⟩
  · rcases getWindowPosition_height_cases db dw dh with h | h
    · exact ⟨db.height, by rw [h]⟩
    · exact ⟨dh, by rw [h]⟩

/-- A live auxiliary `BrowserWindow` handle as far as the diagnostic
sessions observe it: its id and whether it is currently minimized.
`focus()` does not change the minimized flag; only `restore()` does, and
the diagnostic open paths never call `restore()`. -/
structure Window where
  wid : Nat
  minimized : Bool
deriving DecidableEq, Repr

/-- Observable actions of a diagnostic session's teardown, recorded in
order: the child window being closed, and an actual disposal effect of
the session's `DisposableStore`. -/
inductive TraceItem
  | childWindowClosed (wid : Nat)
  | storeDisposeEffect
deriving DecidableEq, Repr

/-- State of one diagnostic-session role.  `window`/`parentWindow` embed
the `issueReporterWindow`/`issueReporterParentWindow` pair (source lines
36-37) and equally the `processExplorerWindow`/`processExplorerParentWindow`
pair (lines 39-40): the two roles run the same control flow.
`storeDisposed` and `disposeEffects` track the current session's
`DisposableStore`; `factoryCalls` counts executions of the
window-building body (`createBrowserWindow` plus configuration), and
`focusLog` records every `focus()` call by window id. -/
structure SessionState where
  window : Option Window
  parentWindow : Option Window
  storeDisposed : Bool
  disposeEffects : Nat
  factoryCalls : Nat
  focusLog : List Nat
  trace : List TraceItem
deriving DecidableEq, Repr

/-- Modelled from the spec: `DisposableStore.dispose` comes from
`vs/base/common/lifecycle`, which is not under `src/`; spec section 4.2
requires `dispose` to "be idempotent", so disposal is a no-op once the
store is disposed, and `disposeEffects` counts only the actual disposal
effects of the current session's store. -/
def disposeStore (s : SessionState) : SessionState :=
  if s.storeDisposed then s
  else { s with storeDisposed := true
              , disposeEffects := s.disposeEffects + 1
              , trace := s.trace ++ [TraceItem.storeDisposeEffect] }

/-- Embedding of the child-window close listener (source lines 338-342
for the issue reporter, lines 382-385 for the process explorer): null the
window slot, then dispose the session's disposables. -/
def onChildClose (s : SessionState) : SessionState :=
  disposeStore { s with window := none }

/-- Embedding of the parent-window close listener (source lines 344-351
for the issue reporter, registered on `closed`, and lines 387-394 for
the process explorer, registered on `close`; the two handler bodies are
identical): if the child window is still present, close it — which fires
the child's own close listener — then null the slot and dispose again.
The `close()` call is recorded in the trace before the child listener
runs. -/
def onParentClosed (s : SessionState) : SessionState :=
  match s.window with
  | none => s
  | some w =>
    let s1 := onChildClose { s with trace := s.trace ++ [TraceItem.childWindowClosed w.wid] }
    disposeStore { s1 with window := none }

/-- The closure triggers that can reach a diagnostic session: its own
window closing, and its parent window closing. -/
inductive CloseEvent
  | childClose
  | parentClosed
deriving DecidableEq, Repr

def applyCloseEvent (e : CloseEvent) (s : SessionState) : SessionState :=
  match e with
  | CloseEvent.childClose => onChildClose s
  | CloseEvent.parentClosed => onParentClosed s

def runCloseEvents (evs : List CloseEvent) (s : SessionState) : SessionState :=
  match evs with
  | [] => s
  | e :: rest => runCloseEvents rest (applyCloseEvent e s)

/-- Embedding of `IssueMainService.openReporter` (source lines 308-356)
and `IssueMainService.openProcessExplorer` (lines 358-399), whose control
flow is identical: if no window of the role exists, capture the focused
window as parent (the assignment happens even when no window is focused);
if a parent was captured, run the factory — fresh `DisposableStore`,
placement, window creation, configuration publication, close listeners.
Finally, focus the role's window if one exists (`?.focus()`, lines 355
and 398).  The open path never calls `restore()`. -/
def openDiagnosticSession (focused : Option Window) (newWid : Nat)
    (s : SessionState) : SessionState :=
  let s2 :=
    match s.window with
    | some _ => s
    | none =>
      match focused with
      | none => { s with parentWindow := none }
      | some p =>
        { s with parentWindow := some p
               , window := some { wid := newWid, minimized := false }
               , storeDisposed := false
               , disposeEffects := 0
               , factoryCalls := s.factoryCalls + 1 }
  match s2.window with
  | some w => { s2 with focusLog := s2.focusLog ++ [w.wid] }
  | none => s2

/-- A bridge `BrowserWindow` handle: id, minimized flag, and whether the
native window object has been destroyed (`isDestroyed()`, checked on
source line 194). -/
structure BridgeWindow where
  wid : Nat
  minimized : Bool
  destroyed : Bool
deriving DecidableEq, Repr

/-- One `(channel, command)` entry of `config.events` (source lines
259-266). -/
structure EventPair where
  channel : String
  command : String
deriving DecidableEq, Repr

/-- The parts of the first `openBrowserWindow` argument that the
verified properties observe: the window id tag that drives the listener
switch (line 270) and the `(channel, command)` pairs (lines 259-266).
Width/height/theme/URL plumbing does not affect these properties and is
not modelled. -/
structure BridgeConfig where
  winId : String
  events : List EventPair
deriving DecidableEq, Repr

/-- State of the generic bridge session: `_browserWindow` and
`_browserParentWindow` (source lines 42-43), a factory-invocation
counter for the `new BrowserWindow` body (lines 220-238), and the log of
`focus()` calls. -/
structure BridgeState where
  browserWindow : Option BridgeWindow
  browserParentWindow : Option BridgeWindow
  factoryCalls : Nat
  focusLog : List Nat
deriving DecidableEq, Repr

/-- How the promise returned by `openBrowserWindow` is settled by the
call itself: rejected during the call, or left pending (to be settled
later by listeners, or never). -/
inductive BridgeOutcome
  | rejected
  | pending
deriving DecidableEq, Repr

/-- Embedding of `IssueMainService.openBrowserWindow` (source lines
192-306) at the granularity of its session bookkeeping.  In source
order: a live non-destroyed window is restored if minimized, focused,
and the promise rejected (lines 194-201); empty `args` reject
(lines 202-205); otherwise, when no window object exists, the focused
window is captured as parent — even when null — and, if a parent was
captured, the factory runs (lines 216-299); finally, if a window object
exists, it is focused (lines 302-304).  Window creation, listener
installation, URL loading and the ready-to-show handshake leave the
promise pending.  Note that a destroyed-but-non-null window skips both
the reject branch and the creation branch and is merely focused. -/
def openBrowserWindow (focused : Option BridgeWindow) (newWid : Nat)
    (args : List BridgeConfig) (s : BridgeState) : BridgeState × BridgeOutcome :=
  match s.browserWindow with
  | some w =>
    if w.destroyed = false then
      let w2 := if w.minimized then { w with minimized := false } else w
      ({ s with browserWindow := some w2, focusLog := s.focusLog ++ [w2.wid] },
        BridgeOutcome.rejected)
    else if args.isEmpty then
      (s, BridgeOutcome.rejected)
    else
      ({ s with focusLog := s.focusLog ++ [w.wid] }, BridgeOutcome.pending)
  | none =>
    if args.isEmpty then
      (s, BridgeOutcome.rejected)
    else
      match focused with
      | none => ({ s with browserParentWindow := none }, BridgeOutcome.pending)
      | some p =>
        ({ s with browserParentWindow := some p
                , browserWindow := some { wid := newWid, minimized := false, destroyed := false }
                , factoryCalls := s.factoryCalls + 1
                , focusLog := s.focusLog ++ [newWid] },
          BridgeOutcome.pending)

/-- Effect of one message arriving on a configured bridge channel. -/
inductive ChannelEffect
  | resolvedResult (payload : String)
  | forwardedRunAction (id : String) (sourceField : String) (args : List String)
  | droppedNoParent
deriving DecidableEq, Repr

/-- Embedding of the per-channel listener installed by
`openBrowserWindow` for each valid `(channel, command)` pair (source
lines 268-277).  The body switches on `config.winId` (line 270): the
`certificate` case resolves the session's pending promise with the
message payload (line 272); every other window id forwards
`id = command, from = mouse (line 258), args = [payload]` to the parent
window as a `vscode:runAction` command when the parent is still present
(optional chaining, line 275), and otherwise sends nothing. -/
def bridgeChannelMessage (winId : String) (command : String)
    (parentPresent : Bool) (payload : String) : ChannelEffect :=
  if winId = "certificate" then
    ChannelEffect.resolvedResult payload
  else if parentPresent then
    ChannelEffect.forwardedRunAction command "mouse" [payload]
  else
    ChannelEffect.droppedNoParent

lemma update_window_none_eq (s : SessionState) (h : s.window = none) :
    ({ s with window := none } : SessionState) = s := by
  cases s
  simp_all

lemma applyCloseEvent_of_closed (e : CloseEvent) (s : SessionState)
    (h : s.window = none) (h2 : s.storeDisposed = true) :
    applyCloseEvent e s = s := by
  cases e
  · show onChildClose s = s
    rw [onChildClose, update_window_none_eq s h, disposeStore, if_pos h2]
  · show onParentClosed s = s
    simp [onParentClosed, h]

lemma applyCloseEvent_of_live (e : CloseEvent) (s : SessionState) (w : Window)
    (h : s.window = some w) (h2 : s.storeDisposed = false) :
    (applyCloseEvent e s).window = none ∧
    (applyCloseEvent e s).storeDisposed = true ∧
    (applyCloseEvent e s).disposeEffects = s.disposeEffects + 1 ∧
    (applyCloseEvent e s).factoryCalls = s.factoryCalls := by
  cases e <;>
    simp [applyCloseEvent, onChildClose, onParentClosed, disposeStore, h, h2]

lemma runCloseEvents_of_closed (evs : List CloseEvent) (s : SessionState)
    (h : s.window = none) (h2 : s.storeDisposed = true) :
    runCloseEvents evs s = s := by
  induction evs with
  | nil => rfl
  | cons e rest ih =>
    simp only [runCloseEvents]
    rw [applyCloseEvent_of_closed e s h h2, ih]

/-- C2: starting from a live diagnostic session (issue reporter or
process explorer) whose disposables are not yet disposed, the parent
close listener closes the child window and then disposes the session's
disposables, in that order; any nonempty sequence of close signals
(child close and/or parent close, in any order) leaves the window slot
nulled with exactly one disposal effect, and a subsequent open call for
the role runs the factory to create a fresh session. -/
theorem C2_parent_close_teardown :
    ∀ (s : SessionState) (w p : Window) (newWid : Nat) (evs : List CloseEvent),
      s.window = some w → s.storeDisposed = false → s.disposeEffects = 0 →
      ((applyCloseEvent CloseEvent.parentClosed s).trace
          = s.trace ++ [TraceItem.childWindowClosed w.wid, TraceItem.storeDisposeEffect]) ∧
      (evs ≠ [] →
        (runCloseEvents evs s).window = none ∧
        (runCloseEvents evs s).storeDisposed = true ∧
        (runCloseEvents evs s).disposeEffects = 1 ∧
        (openDiagnosticSession (some p) newWid (runCloseEvents evs s)).factoryCalls
          = (runCloseEvents evs s).factoryCalls + 1) := by
  intro s w p newWid evs h h2 h3
  constructor
  · simp [applyCloseEvent, onParentClosed, onChildClose, disposeStore, h, h2]
  · intro hne
    match evs, hne with
    | e :: rest, _ =>
      obtain ⟨hw, hs, hd, _⟩ := applyCloseEvent_of_live e s w h h2
      have hrun : runCloseEvents (e :: rest) s = applyCloseEvent e s := by
        simp only [runCloseEvents]
        exact runCloseEvents_of_closed rest _ hw hs
      rw [hrun]
      refine ⟨hw, hs, by rw [hd, h3], ?_⟩
      simp [openDiagnosticSession, hw]

/-- A concrete freshly opened session used to witness C2. -/
def liveReporterSession : SessionState :=
  { window := some { wid := 7, minimized := false }
  , parentWindow := some { wid := 3, minimized := false }
  , storeDisposed := false
  , disposeEffects := 0
  , factoryCalls := 1
  , focusLog := [7]
  , trace := [] }

/-- Witness for C2: the teardown theorem applied to a concrete live
session and the close sequence parent-closed followed by a stale child
close signal. -/
theorem C2_parent_close_teardown_witness :
    ((applyCloseEvent CloseEvent.parentClosed liveReporterSession).trace
        = [TraceItem.childWindowClosed 7, TraceItem.storeDisposeEffect]) ∧
    ((runCloseEvents [CloseEvent.parentClosed, CloseEvent.childClose]
        liveReporterSession).window = none ∧
      (runCloseEvents [CloseEvent.parentClosed, CloseEvent.childClose]
        liveReporterSession).storeDisposed = true ∧
      (runCloseEvents [CloseEvent.parentClosed, CloseEvent.childClose]
        liveReporterSession).disposeEffects = 1 ∧
      (openDiagnosticSession (some { wid := 3, minimized := false }) 9
          (runCloseEvents [CloseEvent.parentClosed, CloseEvent.childClose]
            liveReporterSession)).factoryCalls
        = (runCloseEvents [CloseEvent.parentClosed, CloseEvent.childClose]
            liveReporterSession).factoryCalls + 1) := by
  have h := C2_parent_close_teardown liveReporterSession
    { wid := 7, minimized := false } { wid := 3, minimized := false } 9
    [CloseEvent.parentClosed, CloseEvent.childClose] rfl rfl rfl
  exact ⟨h.1, h.2 (by decide)⟩

/-- A live diagnostic session whose window is currently minimized. -/
def liveMinimizedReporter : SessionState :=
  { window := some { wid := 1, minimized := true }
  , parentWindow := some { wid := 0, minimized := false }
  , storeDisposed := false
  , disposeEffects := 0
  , factoryCalls := 1
  , focusLog := [1]
  , trace := [] }

/-- C1 counterexample: a second open call on a diagnostic role whose live
window is minimized leaves it minimized — the open path only calls
`focus()`, never `restore()` — refuting the claim that for every role the
existing window is restored if minimized. -/
theorem C1_counterexample_minimized_not_restored :
    (openDiagnosticSession (some { wid := 0, minimized := false }) 2
        liveMinimizedReporter).window = some { wid := 1, minimized := true } ∧
    ¬ (openDiagnosticSession (some { wid := 0, minimized := false }) 2
        liveMinimizedReporter).window = some { wid := 1, minimized := false } := by
  decide

/-- C1 amended: for every role, a second open call while a session is
live creates no window and never runs the factory; the existing window
is focused.  Only the generic bridge additionally restores a minimized
window; the issue reporter and process explorer leave the window exactly
as it was (minimized stays minimized). -/
theorem C1_amended_second_open_focus_only :
    (∀ (s : SessionState) (w : Window) (focused : Option Window) (newWid : Nat),
      s.window = some w →
      (openDiagnosticSession focused newWid s).window = some w ∧
      (openDiagnosticSession focused newWid s).factoryCalls = s.factoryCalls ∧
      (openDiagnosticSession focused newWid s).focusLog = s.focusLog ++ [w.wid]) ∧
    (∀ (bs : BridgeState) (w : BridgeWindow) (focused : Option BridgeWindow)
      (newWid : Nat) (args : List BridgeConfig),
      bs.browserWindow = some w → w.destroyed = false →
      (openBrowserWindow focused newWid args bs).1.factoryCalls = bs.factoryCalls ∧
      (openBrowserWindow focused newWid args bs).1.browserWindow
        = some { w with minimized := false } ∧
      (openBrowserWindow focused newWid args bs).1.focusLog
        = bs.focusLog ++ [w.wid]) := by
  constructor
  · intro s w focused newWid h
    simp [openDiagnosticSession, h]
  · intro bs w focused newWid args h hd
    obtain ⟨wid, mini, des⟩ := w
    cases mini <;> simp_all [openBrowserWindow]

/-- Witness for C1 amended: applied to a live minimized reporter session
and a live minimized bridge window. -/
theorem C1_amended_second_open_focus_only_witness :
    ((openDiagnosticSession (some { wid := 0, minimized := false }) 2
        liveMinimizedReporter).window = some { wid := 1, minimized := true } ∧
      (openDiagnosticSession (some { wid := 0, minimized := false }) 2
        liveMinimizedReporter).factoryCalls = liveMinimizedReporter.factoryCalls ∧
      (openDiagnosticSession (some { wid := 0, minimized := false }) 2
        liveMinimizedReporter).focusLog = liveMinimizedReporter.focusLog ++ [1]) ∧
    ((openBrowserWindow none 8 []
        { browserWindow := some { wid := 5, minimized := true, destroyed := false }
        , browserParentWindow := none
        , factoryCalls := 2
        , focusLog := [5] }).1.factoryCalls = 2 ∧
      (openBrowserWindow none 8 []
        { browserWindow := some { wid := 5, minimized := true, destroyed := false }
        , browserParentWindow := none
        , factoryCalls := 2
        , focusLog := [5] }).1.browserWindow
        = some { wid := 5, minimized := false, destroyed := false } ∧
      (openBrowserWindow none 8 []
        { browserWindow := some { wid := 5, minimized := true, destroyed := false }
        , browserParentWindow := none
        , factoryCalls := 2
        , focusLog := [5] }).1.focusLog = [5] ++ [5]) :=
  ⟨C1_amended_second_open_focus_only.1 liveMinimizedReporter
      { wid := 1, minimized := true } (some { wid := 0, minimized := false }) 2 rfl,
    C1_amended_second_open_focus_only.2
      { browserWindow := some { wid := 5, minimized := true, destroyed := false }
      , browserParentWindow := none, factoryCalls := 2, focusLog := [5] }
      { wid := 5, minimized := true, destroyed := false } none 8 [] rfl rfl⟩

/-- C7: requesting a bridge session while a live, non-destroyed bridge
window exists rejects the new request at once, runs no factory, keeps
exactly the existing window (restored if it was minimized), and focuses
it. -/
theorem C7_second_bridge_request_rejected :
    ∀ (s : BridgeState) (w : BridgeWindow) (focused : Option BridgeWindow)
      (newWid : Nat) (args : List BridgeConfig),
      s.browserWindow = some w → w.destroyed = false →
      (openBrowserWindow focused newWid args s).2 = BridgeOutcome.rejected ∧
      (openBrowserWindow focused newWid args s).1.factoryCalls = s.factoryCalls ∧
      (openBrowserWindow focused newWid args s).1.browserWindow
        = some { w with minimized := false } ∧
      (openBrowserWindow focused newWid args s).1.focusLog
        = s.focusLog ++ [w.wid] := by
  intro s w focused newWid args h hd
  obtain ⟨wid, mini, des⟩ := w
  cases mini <;> simp_all [openBrowserWindow]

/-- Witness for C7: a second `openBrowserWindow` call against a concrete
live minimized bridge window is rejected without creating a window. -/
theorem C7_second_bridge_request_rejected_witness :
    (openBrowserWindow none 9 [{ winId := "addEmulator", events := [] }]
        { browserWindow := some { wid := 4, minimized := true, destroyed := false }
        , browserParentWindow := none
        , factoryCalls := 1
        , focusLog := [4] }).2 = BridgeOutcome.rejected ∧
    (openBrowserWindow none 9 [{ winId := "addEmulator", events := [] }]
        { browserWindow := some { wid := 4, minimized := true, destroyed := false }
        , browserParentWindow := none
        , factoryCalls := 1
        , focusLog := [4] }).1.factoryCalls = 1 ∧
    (openBrowserWindow none 9 [{ winId := "addEmulator", events := [] }]
        { browserWindow := some { wid := 4, minimized := true, destroyed := false }
        , browserParentWindow := none
        , factoryCalls := 1
        , focusLog := [4] }).1.browserWindow
      = some { wid := 4, minimized := false, destroyed := false } ∧
    (openBrowserWindow none 9 [{ winId := "addEmulator", events := [] }]
        { browserWindow := some { wid := 4, minimized := true, destroyed := false }
        , browserParentWindow := none
        , factoryCalls := 1
        , focusLog := [4] }).1.focusLog = [4] ++ [4] :=
  C7_second_bridge_request_rejected
    { browserWindow := some { wid := 4, minimized := true, destroyed := false }
    , browserParentWindow := none, factoryCalls := 1, focusLog := [4] }
    { wid := 4, minimized := true, destroyed := false } none 9
    [{ winId := "addEmulator", events := [] }] rfl rfl

/-- C6 counterexample: a bridge session whose window id is
`addEmulator`, configured with the pair whose command id is
`certificate`, forwards a message on that channel to the parent as an
ordinary `vscode:runAction` command instead of resolving the pending
result: the listener switch keys on the session's window id, not on the
pair's command id. -/
theorem C6_counterexample_commandId_not_termination :
    bridgeChannelMessage "addEmulator" "certificate" true "payload0"
        = ChannelEffect.forwardedRunAction "certificate" "mouse" ["payload0"] ∧
    ¬ bridgeChannelMessage "addEmulator" "certificate" true "payload0"
        = ChannelEffect.resolvedResult "payload0" := by
  constructor
  · rfl
  · decide

/-- C6 amended: termination is keyed on the session's `winId`: when the
bridge configuration's window id is `certificate`, a message on any
configured channel resolves the pending result with the message payload
and is not forwarded; for every other window id, a message on a
configured channel is forwarded to the live parent as an ordinary
command whose id is the pair's command id, with source `mouse`. -/
theorem C6_amended_winId_keys_termination :
    (∀ (command payload : String) (parentPresent : Bool),
      bridgeChannelMessage "certificate" command parentPresent payload
        = ChannelEffect.resolvedResult payload) ∧
    (∀ (winId command payload : String), winId ≠ "certificate" →
      bridgeChannelMessage winId command true payload
        = ChannelEffect.forwardedRunAction command "mouse" [payload]) := by
  constructor
  · intro command payload parentPresent
    rfl
  · intro winId command payload h
    simp [bridgeChannelMessage, h]

/-- Witness for C6 amended: a `certificate` session resolves a
`cert-ready` message, and an `addEmulator` session forwards it. -/
theorem C6_amended_winId_keys_termination_witness :
    bridgeChannelMessage "certificate" "certReady" false "data1"
        = ChannelEffect.resolvedResult "data1" ∧
    bridgeChannelMessage "addEmulator" "startEmulator" true "data2"
        = ChannelEffect.forwardedRunAction "startEmulator" "mouse" ["data2"] :=
  ⟨C6_amended_winId_keys_termination.1 "certReady" "data1" false,
    C6_amended_winId_keys_termination.2 "addEmulator" "startEmulator" "data2"
      (by decide)⟩

/-- The `commandInfo` payload of a `vscode:workbenchCommand` message
(source line 138); `fromField` embeds the payload's `from` property. -/
structure CommandInfo where
  id : String
  fromField : String
  args : List String
deriving DecidableEq, Repr

/-- Outcome of routing one workbench command: forwarded to the resolved
parent window as a `vscode:runAction` message, or dropped because that
parent slot is null. -/
inductive RouteResult
  | forwardedToParent (parentWid : Nat) (id : String) (fromField : String) (args : List String)
  | droppedNoParent
deriving DecidableEq, Repr

/-- Embedding of the `switch (from)` on source lines 142-151: resolve the
command source to the corresponding parent-window slot, raising the
`Unexpected command source` error for any other source.  A JavaScript
switch over two string cases plus `default` is an equality chain. -/
def lookupCommandParent (issueReporterParent processExplorerParent : Option Window)
    (src : String) : Except String (Option Window) :=
  if src = "issueReporter" then Except.ok issueReporterParent
  else if src = "processExplorer" then Except.ok processExplorerParent
  else Except.error ("Unexpected command source: " ++ src)

/-- Embedding of the `vscode:workbenchCommand` handler (source lines
138-156): resolve the parent slot via the switch; a thrown error
propagates, a null parent drops the message silently (line 153 guard),
and a live parent receives `vscode:runAction` with the original id,
source and args (line 154). -/
def routeWorkbenchCommand (issueReporterParent processExplorerParent : Option Window)
    (cmd : CommandInfo) : Except String RouteResult :=
  match lookupCommandParent issueReporterParent processExplorerParent cmd.fromField with
  | Except.error e => Except.error e
  | Except.ok none => Except.ok RouteResult.droppedNoParent
  | Except.ok (some p) =>
      Except.ok (RouteResult.forwardedToParent p.wid cmd.id cmd.fromField cmd.args)

/-- C3: a workbench command whose source is a known role but whose
parent-window slot is null is dropped silently (the handler returns
normally), while a command whose source is not one of the two known
roles always raises the `Unexpected command source` error. -/
theorem C3_route_drop_known_error_unknown :
    (∀ (pe : Option Window) (cmd : CommandInfo), cmd.fromField = "issueReporter" →
      routeWorkbenchCommand none pe cmd = Except.ok RouteResult.droppedNoParent) ∧
    (∀ (ir : Option Window) (cmd : CommandInfo), cmd.fromField = "processExplorer" →
      routeWorkbenchCommand ir none cmd = Except.ok RouteResult.droppedNoParent) ∧
    (∀ (ir pe : Option Window) (cmd : CommandInfo),
      cmd.fromField ≠ "issueReporter" → cmd.fromField ≠ "processExplorer" →
      routeWorkbenchCommand ir pe cmd
        = Except.error ("Unexpected command source: " ++ cmd.fromField)) := by
  refine ⟨?_, ?_, ?_⟩
  · intro pe cmd h
    simp [routeWorkbenchCommand, lookupCommandParent, h]
  · intro ir cmd h
    simp [routeWorkbenchCommand, lookupCommandParent, h]
  · intro ir pe cmd h1 h2
    simp [routeWorkbenchCommand, lookupCommandParent, h1, h2]

/-- Witness for C3: a `issueReporter` command with a null parent slot is
dropped, a `processExplorer` one likewise, and an `unknown-role` command
raises the error. -/
theorem C3_route_drop_known_error_unknown_witness :
    routeWorkbenchCommand none (some { wid := 3, minimized := false })
        { id := "cmd1", fromField := "issueReporter", args := [] }
      = Except.ok RouteResult.droppedNoParent ∧
    routeWorkbenchCommand (some { wid := 3, minimized := false }) none
        { id := "cmd2", fromField := "processExplorer", args := [] }
      = Except.ok RouteResult.droppedNoParent ∧
    routeWorkbenchCommand (some { wid := 3, minimized := false })
        (some { wid := 4, minimized := false })
        { id := "cmd3", fromField := "unknown-role", args := [] }
      = Except.error ("Unexpected command source: " ++ "unknown-role") :=
  ⟨C3_route_drop_known_error_unknown.1 (some { wid := 3, minimized := false })
      { id := "cmd1", fromField := "issueReporter", args := [] } rfl,
    C3_route_drop_known_error_unknown.2.1 (some { wid := 3, minimized := false })
      { id := "cmd2", fromField := "processExplorer", args := [] } rfl,
    C3_route_drop_known_error_unknown.2.2 (some { wid := 3, minimized := false })
      (some { wid := 4, minimized := false })
      { id := "cmd3", fromField := "unknown-role", args := [] }
      (by decide) (by decide)⟩

/-- `rootProcess` of one entry of the `vscode:listProcesses` reply:
either a process tree or the remote diagnostic error object that was
pushed verbatim (source lines 76-79). -/
inductive RootProcess
  | tree (t : String)
  | remoteError (message : String)
deriving DecidableEq, Repr

/-- One `{name, rootProcess}` entry of the reply (source lines 71-86). -/
structure ProcessEntry where
  name : String
  rootProcess : RootProcess
deriving DecidableEq, Repr

/-- One element of the remote-diagnostics collaborator result: an error
object (`isRemoteDiagnosticError`, line 75) or a diagnostics record
whose `processes` field may be absent (line 81). -/
inductive RemoteDiagnosticInfo
  | diagError (hostName : String) (message : String)
  | diagInfo (hostName : String) (processes : Option String)
deriving DecidableEq, Repr

/-- The `remoteDiagnostics.forEach` body (source lines 74-88): error
items are pushed as entries carrying the error object; info items are
pushed only when they carry a process tree. -/
def remoteEntries (items : List RemoteDiagnosticInfo) : List ProcessEntry :=
  items.filterMap fun item =>
    match item with
    | RemoteDiagnosticInfo.diagError host msg =>
        some { name := host, rootProcess := RootProcess.remoteError msg }
    | RemoteDiagnosticInfo.diagInfo _ none => none
    | RemoteDiagnosticInfo.diagInfo host (some t) =>
        some { name := host, rootProcess := RootProcess.tree t }

/-- Embedding of the `vscode:listProcesses` handler (source lines
66-94).  The three collaborator steps — `getMainProcessId` (line 70),
`listProcesses` (line 71) and `getRemoteDiagnostics` (line 73) — are
oracles given as `Except` values; the first failure jumps to the catch
block, which logs and leaves `processes` as gathered so far; the reply
is then always attempted through `safeSend` (line 93), so it is an
`Option` that is `none` only when the sender is destroyed.  Returns
(log lines, delivered reply). -/
def listProcessesHandler (getMainProcessId : Except String Nat)
    (listLocalProcesses : Nat → Except String String)
    (getRemoteDiagnostics : Except String (List RemoteDiagnosticInfo))
    (senderDestroyed : Bool) :
    List String × Option (List ProcessEntry) :=
  let result : List String × List ProcessEntry :=
    match getMainProcessId with
    | Except.error e => (["Listing processes failed: " ++ e], [])
    | Except.ok mainPid =>
      match listLocalProcesses mainPid with
      | Except.error e => (["Listing processes failed: " ++ e], [])
      | Except.ok t =>
        let processes := [{ name := "Local", rootProcess := RootProcess.tree t }]
        match getRemoteDiagnostics with
        | Except.error e => (["Listing processes failed: " ++ e], processes)
        | Except.ok items => ([], processes ++ remoteEntries items)
  (result.1, if senderDestroyed then none else some result.2)

/-- C8: the list-processes handler always delivers a reply to a live
sender whatever the collaborators do (a failure is caught, never
propagated), and when the local steps succeeded but the
remote-diagnostics collaborator failed, the reply still contains exactly
the local process tree while the failure goes to the log. -/
theorem C8_list_processes_partial_results :
    ∀ (getMainProcessId : Except String Nat)
      (listLocalProcesses : Nat → Except String String)
      (getRemoteDiagnostics : Except String (List RemoteDiagnosticInfo)),
      (∃ reply, (listProcessesHandler getMainProcessId listLocalProcesses
          getRemoteDiagnostics false).2 = some reply) ∧
      (∀ (mainPid : Nat) (t e : String),
        getMainProcessId = Except.ok mainPid →
        listLocalProcesses mainPid = Except.ok t →
        getRemoteDiagnostics = Except.error e →
        listProcessesHandler getMainProcessId listLocalProcesses
            getRemoteDiagnostics false
          = (["Listing processes failed: " ++ e],
              some [{ name := "Local", rootProcess := RootProcess.tree t }])) := by
  intro gp lp gr
  constructor
  · match gp with
    | Except.error e => exact ⟨[], rfl⟩
    | Except.ok mainPid =>
      match hl : lp mainPid with
      | Except.error e => exact ⟨[], by simp [listProcessesHandler, hl]⟩
      | Except.ok t =>
        match gr with
        | Except.error e =>
            exact ⟨[{ name := "Local", rootProcess := RootProcess.tree t }],
              by simp [listProcessesHandler, hl]⟩
        | Except.ok items =>
            exact ⟨[{ name := "Local", rootProcess := RootProcess.tree t }]
                ++ remoteEntries items, by simp [listProcessesHandler, hl]⟩
  · intro mainPid t e h1 h2 h3
    simp [listProcessesHandler, h1, h2, h3]

/-- Witness for C8: with a succeeding local listing and a failing
remote-diagnostics collaborator, the reply delivered to a live sender is
exactly the local tree and the failure is logged. -/
theorem C8_list_processes_partial_results_witness :
    (∃ reply, (listProcessesHandler (Except.ok 42)
        (fun _ => Except.ok "localTree")
        (Except.error "remoteDown") false).2 = some reply) ∧
    listProcessesHandler (Except.ok 42) (fun _ => Except.ok "localTree")
        (Except.error "remoteDown") false
      = (["Listing processes failed: " ++ "remoteDown"],
          some [{ name := "Local", rootProcess := RootProcess.tree "localTree" }]) :=
  ⟨(C8_list_processes_partial_results (Except.ok 42)
      (fun _ => Except.ok "localTree") (Except.error "remoteDown")).1,
    (C8_list_processes_partial_results (Except.ok 42)
      (fun _ => Except.ok "localTree") (Except.error "remoteDown")).2
      42 "localTree" "remoteDown" rfl rfl rfl⟩

/-- Embedding of `IssueMainService.getPerformanceInfo` (source lines
508-517): the combined collaborator fetch (main process info, remote
diagnostics and `diagnosticsService.getPerformanceInfo`) is one oracle;
on failure the handler logs a warning (line 513) and rethrows
(line 515).  Returns (log lines, outcome). -/
def getPerformanceInfo (fetchPerformanceInfo : Except String String) :
    List String × Except String String :=
  match fetchPerformanceInfo with
  | Except.ok v => ([], Except.ok v)
  | Except.error e => (["issueService#getPerformanceInfo " ++ e], Except.error e)

/-- Embedding of the `vscode:issuePerformanceInfoRequest` handler
(source lines 112-115): await `getPerformanceInfo`, then `safeSend` the
response.  A rethrown failure aborts the async listener before the send,
so no reply message reaches the requesting sender; the listener's
rejection is delivered nowhere.  Returns (log lines, replies delivered
to the sender, handler outcome). -/
def performanceInfoRequestHandler (fetchPerformanceInfo : Except String String)
    (senderDestroyed : Bool) :
    List String × List String × Except String Unit :=
  match getPerformanceInfo fetchPerformanceInfo with
  | (logs, Except.ok v) =>
      (logs, (if senderDestroyed then [] else [v]), Except.ok ())
  | (logs, Except.error e) => (logs, [], Except.error e)

/-- C9 counterexample: when the performance-info collaborator fails, the
failure is logged, but the live requesting sender receives no reply
message at all — the handler aborts before `safeSend` — refuting the
claim that the caller of the performance-info request observes the
failure rather than receiving no response. -/
theorem C9_counterexample_requester_gets_nothing :
    (performanceInfoRequestHandler (Except.error "collabFail") false).2.1 = [] ∧
    (performanceInfoRequestHandler (Except.error "collabFail") false).1
      = ["issueService#getPerformanceInfo collabFail"] :=
  ⟨rfl, rfl⟩

/-- C9 amended: when the performance-info collaborator call fails, the
failure is first logged and then rethrown to the handler awaiting
`getPerformanceInfo`; that handler sends no reply, so the requester of
the performance-info request receives no response. -/
theorem C9_amended_logged_rethrown_no_reply :
    ∀ (e : String) (senderDestroyed : Bool),
      getPerformanceInfo (Except.error e)
        = (["issueService#getPerformanceInfo " ++ e], Except.error e) ∧
      performanceInfoRequestHandler (Except.error e) senderDestroyed
        = (["issueService#getPerformanceInfo " ++ e], [], Except.error e) := by
  intro e senderDestroyed
  exact ⟨rfl, rfl⟩

/-- Embedding of `IssueMainService.safeSend` (source lines 186-190):
deliver the message on the channel only when the requesting sender has
not been destroyed. -/
def safeSend (senderDestroyed : Bool) (channel payload : String) :
    List (String × String) :=
  if senderDestroyed then [] else [(channel, payload)]

/-- Embedding of the `vscode:issueReporterClipboard` handler (source
lines 96-110): when an issue-reporter window is live, show the
confirmation dialog over it and `safeSend` whether the first button was
chosen; when no issue-reporter window is live, neither a dialog nor a
reply happens.  Returns (dialogs shown, messages delivered to the
sender). -/
def issueReporterClipboardHandler (issueReporterWindow : Option Window)
    (senderDestroyed : Bool) (dialogResponse : Nat) :
    List String × List (String × String) :=
  match issueReporterWindow with
  | none => ([], [])
  | some _ =>
    (["issueReporterWriteToClipboard"],
      safeSend senderDestroyed "vscode:issueReporterClipboardResponse"
        (if dialogResponse = 0 then "true" else "false"))

/-- C10: with no live issue-reporter window, a clipboard-confirm request
shows no dialog and sends no reply; and in general `safeSend` delivers
nothing once the requesting sender is destroyed, without failing. -/
theorem C10_clipboard_silent_and_safeSend_suppression :
    (∀ (senderDestroyed : Bool) (dialogResponse : Nat),
      issueReporterClipboardHandler none senderDestroyed dialogResponse = ([], [])) ∧
    (∀ (channel payload : String), safeSend true channel payload = []) := by
  constructor
  · intro senderDestroyed dialogResponse
    rfl
  · intro channel payload
    rfl

end IssueMain
